import Mathlib

/-!
ParentBot chat controller (`static/script.js`).

A shallow embedding of the browser-side chat controller.  The DOM handles
(`chatWindow`, `messageInput`, `sendButton`) and the session variable
`chatHistory` become fields of an explicit `State`; the `async` function
`handleSendMessage` is split at its suspension point into the synchronous
prefix (lines 21-43, up to the `fetch` call) and the continuation that runs
when the request settles (lines 45-72).

Conventions.

* A thrown `Error` is represented by its `message`; a block of statements
  returns the state it leaves behind together with `some msg` when it threw.
* The external collaborators `marked.parse` and `DOMPurify.sanitize` are
  fields of `Env`.
* `State.effects` is a ghost log of the calls `fetch`, `console.error` and
  `updateChatUI` in the order in which they are executed.
* The scroll position (`scrollTop`) is layout and is not represented.
* The children of the log region are a list of elements; markup inserted
  through `innerHTML` is the tree produced by the HTML parser of the browser
  (`Env.parseFragment`), with the id of every element in it.
* `document.getElementById` searches the log in tree order; the static part of
  the page outside the log carries no element with id `thinking-message`.
* `classList.add` validates its tokens and throws on an empty token or one
  with ASCII white space, as the DOM does.
* Events that arrive while a request is outstanding are separate transitions;
  `handleSendMessage` composes the prefix and the continuation of one call
  with nothing in between.
-/

namespace ParentBot

/-! ## JavaScript values and strings -/

/-- The JavaScript values that flow through the controller.  The fields `reply`
and `error` of a parsed response body are `undefined` when absent; the backend
contract makes them strings, and `null` is kept as the other JSON value that
the script treats specially.  Numbers, booleans and nested values are not
represented. -/
inductive JsValue where
  | undefined
  | null
  | str (s : String)
  deriving DecidableEq, Repr

/-- ECMAScript `WhiteSpace` and `LineTerminator` code points, the characters
removed by `String.prototype.trim`. -/
def isJsWhiteSpace (c : Char) : Bool :=
  let n := c.toNat
  n == 0x09 || n == 0x0A || n == 0x0B || n == 0x0C || n == 0x0D || n == 0x20 ||
  n == 0xA0 || n == 0x1680 || (0x2000 ≤ n && n ≤ 0x200A) || n == 0x2028 ||
  n == 0x2029 || n == 0x202F || n == 0x205F || n == 0x3000 || n == 0xFEFF

/-- The list-level content of `String.prototype.trim`: leading and trailing
white space is dropped. -/
def trimChars (l : List Char) : List Char :=
  (l.dropWhile isJsWhiteSpace).rdropWhile isJsWhiteSpace

/-- The function `String.prototype.trim`. -/
def jsTrim (s : String) : String :=
  ⟨trimChars s.data⟩

/-- JavaScript truthiness, as used by the operator `||`. -/
def JsValue.truthy : JsValue → Bool
  | .undefined => false
  | .null => false
  | .str s => s != ""

/-- The operator `||` on values: the left operand when it is truthy, else the
right one. -/
def JsValue.orElse (a b : JsValue) : JsValue :=
  if a.truthy then a else b

/-- The `message` of `new Error(v)`: the string conversion of `v`, and the
empty string when `v` is `undefined`. -/
def JsValue.newErrorMessage : JsValue → String
  | .undefined => ""
  | .null => "null"
  | .str s => s

/-- The string stored by the setter of `textContent`: `null` and `undefined`
give the empty string. -/
def JsValue.toTextContent : JsValue → String
  | .undefined => ""
  | .null => ""
  | .str s => s

/-! ## Data model -/

/-- One entry of `chatHistory`: the object `{ role, text }`. -/
structure Turn where
  role : String
  text : JsValue
  deriving DecidableEq, Repr

/-- A parsed fragment of markup, the children that an assignment to
`innerHTML` gives an element: a forest in first-child, next-sibling form.  Of
the attributes of an element only `id` is kept (the empty string when unset). -/
inductive Markup where
  | nil
  | text (s : String) (next : Markup)
  | element (tag : String) (id : String) (children : Markup) (next : Markup)
  deriving DecidableEq, Repr

/-- The number of elements of a fragment that carry the id `i`. -/
def Markup.countId (i : String) : Markup → Nat
  | .nil => 0
  | .text _ next => next.countId i
  | .element _ id children next =>
    (if id = i then 1 else 0) + children.countId i + next.countId i

/-- The fragment without its first element, in tree order, carrying the id `i`
(the element is detached together with its descendants); `none` when no
element carries the id. -/
def Markup.removeFirst (i : String) : Markup → Option Markup
  | .nil => none
  | .text s next => (next.removeFirst i).map (Markup.text s)
  | .element tag id children next =>
    if id = i then some next
    else
      match children.removeFirst i with
      | some children1 => some (.element tag id children1 next)
      | none => (next.removeFirst i).map (Markup.element tag id children)

/-- What an element of the log holds: literal text (set through `textContent`)
or structured markup (the parsed fragment set through `innerHTML`). -/
inductive Content where
  | text (s : String)
  | html (nodes : Markup)
  deriving DecidableEq, Repr

/-- A `div` created by `addMessage`; `id` is the empty string when unset. -/
structure Element where
  classList : List String
  id : String
  content : Content
  deriving DecidableEq, Repr

/-- The body of the `POST /chat` request. -/
structure Request where
  message : String
  history : List Turn
  deriving DecidableEq, Repr

/-- Ghost log entries: the externally visible calls made by the controller. -/
inductive Effect where
  | fetch (body : Request)
  | consoleError (msg : String)
  | updateChatUI (enabled : Bool)
  deriving DecidableEq, Repr

/-- The text field `messageInput`. -/
structure InputField where
  value : String
  disabled : Bool
  placeholder : String
  deriving DecidableEq, Repr

/-- The button `sendButton`. -/
structure Button where
  disabled : Bool
  deriving DecidableEq, Repr

/-- The controller state: the three DOM handles, the session transcript and
the ghost effect log. -/
structure State where
  chatWindow : List Element
  messageInput : InputField
  sendButton : Button
  chatHistory : List Turn
  effects : List Effect
  deriving DecidableEq, Repr

/-- The external collaborators.  `markedParse` is `marked.parse` (it may
throw, represented by `Except.error` with the message), `sanitize` is
`DOMPurify.sanitize`, `parseFragment` is the HTML parser run by the setter of
`innerHTML`, `nullReadMessage p` is the message of the `TypeError` raised by the
engine when property `p` of `null` is read, and `tokenErrorMessage t` is the
message of the `DOMException` raised by `classList.add` on the token `t`. -/
structure Env where
  markedParse : JsValue → Except String String
  sanitize : String → String
  parseFragment : String → Markup
  nullReadMessage : String → String
  tokenErrorMessage : String → String

/-- A parsed JSON response body, as far as the controller inspects it: `null`,
or a value whose properties `error` and `reply` are read. -/
inductive JsData where
  | null
  | obj (error : JsValue) (reply : JsValue)
  deriving DecidableEq, Repr

/-- How `response.json()` settles: it rejects with an error message, or
resolves with the parsed body. -/
inductive JsonResult where
  | rejected (msg : String)
  | value (data : JsData)
  deriving DecidableEq, Repr

/-- How the `fetch` promise settles: it rejects (network failure) with an
error message, or resolves with a response having the flag `ok` and a body. -/
inductive FetchOutcome where
  | rejected (msg : String)
  | response (ok : Bool) (json : JsonResult)
  deriving DecidableEq, Repr

/-- How the synchronous prefix of `handleSendMessage` ends. -/
inductive Status where
  | returned
  | threw (msg : String)
  | awaiting
  deriving DecidableEq, Repr

/-! ## Helper and UI functions (section 4 of the script) -/

/-- The function `updateChatUI` (lines 111-119). -/
def updateChatUI (enabled : Bool) (s : State) : State :=
  { s with
    messageInput :=
      { s.messageInput with
        disabled := !enabled
        placeholder := if !enabled then "Please wait..." else "Type your question..." }
    sendButton := { disabled := !enabled }
    effects := s.effects ++ [Effect.updateChatUI enabled] }

/-- ASCII white space, the characters that may not occur in a class token. -/
def isAsciiWhiteSpace (c : Char) : Bool :=
  let n := c.toNat
  n == 0x09 || n == 0x0A || n == 0x0C || n == 0x0D || n == 0x20

/-- A token accepted by `classList.add`: not empty and free of ASCII white
space. -/
def isValidToken (token : String) : Bool :=
  token != "" && !token.data.any isAsciiWhiteSpace

/-- The method `classList.add(...tokens)`: it throws on the first token that is
empty or holds ASCII white space, before the list is touched; otherwise every
token not yet present is appended. -/
def classListAdd (env : Env) (classList : List String) (tokens : List String) :
    Except String (List String) :=
  match tokens.find? (fun token => !isValidToken token) with
  | some token => .error (env.tokenErrorMessage token)
  | none =>
    .ok (tokens.foldl (fun acc token => if token ∈ acc then acc else acc ++ [token]) classList)

/-- The function `addMessage` (lines 77-105); `isThinking` defaults to `false`
at the call sites that omit it.  The new element reaches the log only at line
103, so that a throw at line 79 or 91 leaves the state as it was. -/
def addMessage (env : Env) (text : JsValue) (className : String) (isThinking : Bool)
    (s : State) : State × Option String :=
  match classListAdd env [] ["message", className] with
  | .error msg => (s, some msg)
  | .ok classList =>
    let elemId := if isThinking then "thinking-message" else ""
    if className = "ai-message" ∧ isThinking = false then
      match env.markedParse text with
      | .error msg => (s, some msg)
      | .ok rawHtml =>
        let cleanHtml := env.sanitize rawHtml
        ({ s with chatWindow := s.chatWindow ++
            [{ classList := classList, id := elemId,
               content := .html (env.parseFragment cleanHtml) }] },
          none)
    else
      ({ s with chatWindow := s.chatWindow ++
          [{ classList := classList, id := elemId,
             content := .text text.toTextContent }] },
        none)

/-- The function `addErrorMessage` (lines 107-109). -/
def addErrorMessage (env : Env) (text : String) (s : State) : State × Option String :=
  addMessage env (.str text) "system-message" false s

/-- The statements `document.getElementById(id)` followed by `remove()` on the
element found, if any.  The search runs in tree order: each child of the log is
tried before the elements of its own markup, and these before the next child;
the first element carrying the id is detached. -/
def removeById (id : String) : List Element → List Element
  | [] => []
  | e :: es =>
    if e.id = id then es
    else
      match e.content with
      | .text _ => e :: removeById id es
      | .html nodes =>
        match nodes.removeFirst id with
        | some nodes1 => { e with content := .html nodes1 } :: es
        | none => e :: removeById id es

/-- Lines 53-56 and 65-68: the thinking placeholder is looked up and removed. -/
def removeThinking (s : State) : State :=
  { s with chatWindow := removeById "thinking-message" s.chatWindow }

/-! ## Core function `handleSendMessage` (section 3 of the script) -/

/-- Lines 21-43: the synchronous prefix of `handleSendMessage`, which ends by
returning early, by throwing, or by awaiting the issued request. -/
def handleSendMessage_start (env : Env) (s : State) : State × Status :=
  let message := jsTrim s.messageInput.value
  if message = "" then (s, .returned)
  else
    match addMessage env (.str message) "user-message" false s with
    | (s1, some e) => (s1, .threw e)
    | (s1, none) =>
      let s2 : State :=
        { s1 with chatHistory := s1.chatHistory ++ [{ role := "user", text := .str message }] }
      let s3 : State := { s2 with messageInput := { s2.messageInput with value := "" } }
      let s4 := updateChatUI false s3
      match addMessage env (.str "Turmeric is thinking...") "ai-message" true s4 with
      | (s5, some e) => (s5, .threw e)
      | (s5, none) =>
        ({ s5 with effects := s5.effects ++
            [Effect.fetch { message := message, history := s5.chatHistory }] },
          .awaiting)

/-- Reading property `error` of the parsed body (line 47). -/
def JsData.readError (env : Env) : JsData → Except String JsValue
  | .null => .error (env.nullReadMessage "error")
  | .obj error _ => .ok error

/-- Reading property `reply` of the parsed body (lines 59 and 61). -/
def JsData.readReply (env : Env) : JsData → Except String JsValue
  | .null => .error (env.nullReadMessage "reply")
  | .obj _ reply => .ok reply

/-- Lines 45-61: the part of the `try` block that runs once `fetch` has
settled. -/
def tryBlock (env : Env) (outcome : FetchOutcome) (s : State) : State × Option String :=
  match outcome with
  | .rejected msg => (s, some msg)
  | .response false json =>
    match json with
    | .rejected msg => (s, some msg)
    | .value errorData =>
      match errorData.readError env with
      | .error msg => (s, some msg)
      | .ok err => (s, some (err.orElse (.str "Error from server")).newErrorMessage)
  | .response true json =>
    match json with
    | .rejected msg => (s, some msg)
    | .value data =>
      let s1 := removeThinking s
      match data.readReply env with
      | .error msg => (s1, some msg)
      | .ok reply =>
        match addMessage env reply "ai-message" false s1 with
        | (s2, some msg) => (s2, some msg)
        | (s2, none) =>
          ({ s2 with chatHistory := s2.chatHistory ++ [{ role := "model", text := reply }] }, none)

/-- Lines 63-69: the `catch` block, entered with the message of the error. -/
def catchBlock (env : Env) (msg : String) (s : State) : State × Option String :=
  let s1 := { s with effects := s.effects ++ [Effect.consoleError msg] }
  let s2 := removeThinking s1
  addErrorMessage env ("Error: " ++ msg) s2

/-- Lines 45-72: the continuation of `handleSendMessage` after the request
settles: `try`, then `catch` if it threw, then `finally`. -/
def handleSendMessage_resume (env : Env) (outcome : FetchOutcome) (s : State) :
    State × Option String :=
  let r1 := tryBlock env outcome s
  let r2 := match r1.2 with
    | none => r1
    | some msg => catchBlock env msg r1.1
  (updateChatUI true r2.1, r2.2)

/-- A whole call of `handleSendMessage` with no other event in between: the
prefix, and the continuation when a request was issued. -/
def handleSendMessage (env : Env) (outcome : FetchOutcome) (s : State) : State × Option String :=
  match handleSendMessage_start env s with
  | (s1, .returned) => (s1, none)
  | (s1, .threw msg) => (s1, some msg)
  | (s1, .awaiting) => handleSendMessage_resume env outcome s1

/-! ## Event listeners (section 5 of the script) -/

/-- Line 124: the click listener of the send button is `handleSendMessage`. -/
def onClick (env : Env) (s : State) : State × Status :=
  handleSendMessage_start env s

/-- A click of the user on the send button, as the browser delivers it: a
disabled button receives no click event, so the listener of line 124 runs only
while the button is enabled. -/
def dispatchClick (env : Env) (s : State) : State × Status :=
  if s.sendButton.disabled = true then (s, .returned) else onClick env s

/-- Lines 127-131: the keypress listener of the input field. -/
def onKeypress (env : Env) (key : String) (s : State) : State × Status :=
  if key = "Enter" ∧ s.sendButton.disabled = false then handleSendMessage_start env s
  else (s, .returned)

/-! ## Elements carrying the id of the placeholder -/

/-- The number of elements carrying the id `i` in one child of the log: the
child itself and the elements of its markup. -/
def Element.countId (i : String) (e : Element) : Nat :=
  (if e.id = i then 1 else 0) +
    match e.content with
    | .text _ => 0
    | .html nodes => nodes.countId i

/-- The number of elements of the log whose id is `thinking-message`. -/
def thinkingCount (s : State) : Nat :=
  (s.chatWindow.map (Element.countId "thinking-message")).sum

/-! ## The controller as a transition system -/

/-- The operations that change the state of the page. -/
inductive Event where
  | click
  | keypress (key : String)
  | edit (value : String)
  | settle (outcome : FetchOutcome)
  | addMessage (text : JsValue) (className : String) (isThinking : Bool)
  | addErrorMessage (text : String)
  | updateChatUI (enabled : Bool)

/-- The state after one operation: a click or keypress runs the listener up to
its suspension point, `edit` replaces the content of the input field, `settle`
runs the continuation of a call whose request has settled, and the last three
are direct calls of the helper functions. -/
def step (env : Env) (ev : Event) (s : State) : State :=
  match ev with
  | .click => (onClick env s).1
  | .keypress key => (onKeypress env key s).1
  | .edit value => { s with messageInput := { s.messageInput with value := value } }
  | .settle outcome => (handleSendMessage_resume env outcome s).1
  | .addMessage text className isThinking => (addMessage env text className isThinking s).1
  | .addErrorMessage text => (addErrorMessage env text s).1
  | .updateChatUI enabled => updateChatUI enabled s

/-- The states of a session: the script starts with an empty `chatHistory`
(line 11) on an arbitrary page and calls `updateChatUI(true)` (line 135);
afterwards operations are applied one at a time. -/
inductive Reachable (env : Env) : State → Prop where
  | init (dom : State) (h : dom.chatHistory = []) : Reachable env (updateChatUI true dom)
  | next (ev : Event) (s : State) (h : Reachable env s) : Reachable env (step env ev s)

/-- A text that is a string, equal to its own trim and not empty. -/
def JsValue.isTrimmedNonEmpty : JsValue → Bool
  | .str m => jsTrim m == m && m != ""
  | _ => false

/-- Well-formedness of one turn: the role is `user` or `model`, and the text of
a user turn is trimmed and not empty. -/
def Turn.wellFormed (t : Turn) : Bool :=
  (t.role == "user" && t.text.isTrimmedNonEmpty) || t.role == "model"

/-! ## The page as a transition system -/

/-- The page together with the number of requests that were issued and have
not settled yet. -/
structure Page where
  state : State
  inFlight : Nat
  deriving DecidableEq, Repr

/-- What can happen to the page: a click on the send button, a keypress in the
input field, a change of the value of the input field (by the user, or by a
script at any time), and the settling of a request. -/
inductive PageEvent where
  | click
  | keypress (key : String)
  | edit (value : String)
  | settle (outcome : FetchOutcome)

/-- The count of outstanding requests after a listener ran: a call that
reached its `await` has issued one more. -/
def afterListener (p : Page) (r : State × Status) : Page :=
  { state := r.1, inFlight := if r.2 = .awaiting then p.inFlight + 1 else p.inFlight }

/-- One event of the page.  A request can settle only while one is
outstanding, and its settling runs the continuation of the call that issued
it. -/
def pageStep (env : Env) (ev : PageEvent) (p : Page) : Page :=
  match ev with
  | .click => afterListener p (dispatchClick env p.state)
  | .keypress key => afterListener p (onKeypress env key p.state)
  | .edit value =>
    { p with state :=
        { p.state with messageInput := { p.state.messageInput with value := value } } }
  | .settle outcome =>
    if p.inFlight = 0 then p
    else
      { state := (handleSendMessage_resume env outcome p.state).1, inFlight := p.inFlight - 1 }

/-- The pages of a session: start-up (lines 11 and 135) on an arbitrary
document with no request outstanding, then events one at a time. -/
inductive PageReachable (env : Env) : Page → Prop where
  | init (dom : State) (h : dom.chatHistory = []) :
    PageReachable env { state := updateChatUI true dom, inFlight := 0 }
  | next (ev : PageEvent) (p : Page) (h : PageReachable env p) :
    PageReachable env (pageStep env ev p)

/-! ## Sample data -/

/-- A reply that holds inline markup: a span with the id of the placeholder. -/
def spanReply : String :=
  "<span id=thinking-message>hi</span>"

/-- A stand-in for the HTML parser on the markup of the examples: a paragraph
holding the span of `spanReply`, and otherwise a paragraph holding as text
what stands between its tags. -/
def sampleParse (html : String) : Markup :=
  if html = "<p>" ++ spanReply ++ "</p>" then
    .element "p" "" (.element "span" "thinking-message" (.text "hi" .nil) .nil) .nil
  else
    .element "p" "" (.text ⟨(html.data.drop 3).take (html.data.length - 7)⟩ .nil) .nil

/-- Collaborators used in examples: the renderer wraps strings in a paragraph,
leaving inline markup as it is, and throws on `null` and `undefined`, as
`marked.parse` does; the sanitizer keeps the markup of the examples, which
holds nothing but paragraphs, spans and ids. -/
def sampleEnv : Env where
  markedParse
    | .str s => .ok ("<p>" ++ s ++ "</p>")
    | _ => .error "marked(): input parameter is undefined or null"
  sanitize := fun h => h
  parseFragment := sampleParse
  nullReadMessage := fun p => "Cannot read properties of null (reading " ++ p ++ ")"
  tokenErrorMessage := fun token => "The token provided (" ++ token ++ ") is not valid"

/-- The page right after start-up (line 135), with an empty log. -/
def idleState : State where
  chatWindow := []
  messageInput := { value := "", disabled := false, placeholder := "Type your question..." }
  sendButton := { disabled := false }
  chatHistory := []
  effects := []

/-- The idle page with `v` typed into the input field. -/
def typed (v : String) : State :=
  { idleState with messageInput := { idleState.messageInput with value := v } }

/-- The page after start-up on the idle document, `"Hello"` typed and the send
button clicked, and the value of the input field set to `"again"` while the
request is outstanding: a busy page whose input field holds non-empty text. -/
def waitingPage : Page :=
  pageStep sampleEnv (.edit "again")
    (pageStep sampleEnv .click
      (pageStep sampleEnv (.edit "Hello")
        { state := updateChatUI true idleState, inFlight := 0 }))

/-- The page state after `"Hello"` was submitted from the idle page and
answered by a success response whose reply is `spanReply`. -/
def afterSpanReply : State :=
  (handleSendMessage sampleEnv (.response true (.value (.obj .undefined (.str spanReply))))
    (typed "Hello")).1

/-- The page state after a second submission, `"again"`, was answered by a
success response with the reply `"ok"`. -/
def afterSecondReply : State :=
  (handleSendMessage sampleEnv (.response true (.value (.obj .undefined (.str "ok"))))
    { afterSpanReply with
      messageInput := { afterSpanReply.messageInput with value := "again" } }).1

/-! ## Lemmas on trimming -/

theorem trimChars_idempotent (l : List Char) : trimChars (trimChars l) = trimChars l := by
  unfold trimChars
  have hpre : List.rdropWhile isJsWhiteSpace (List.dropWhile isJsWhiteSpace l) <+:
      List.dropWhile isJsWhiteSpace l := List.rdropWhile_prefix _ _
  have h1 : List.dropWhile isJsWhiteSpace
      (List.rdropWhile isJsWhiteSpace (List.dropWhile isJsWhiteSpace l)) =
      List.rdropWhile isJsWhiteSpace (List.dropWhile isJsWhiteSpace l) := by
    generalize hd : List.dropWhile isJsWhiteSpace l = d at hpre
    generalize hr : List.rdropWhile isJsWhiteSpace d = r at hpre
    cases r with
    | nil => rfl
    | cons a r =>
      obtain ⟨t, ht⟩ := hpre
      have ha : isJsWhiteSpace a = false := by
        have hne : List.dropWhile isJsWhiteSpace l ≠ [] := by
          rw [hd, ← ht]; simp
        have := List.head_dropWhile_not isJsWhiteSpace l hne
        simp only [hd] at this
        subst ht
        simpa using this
      simp [List.dropWhile, ha]
  rw [h1, List.rdropWhile_idempotent]

theorem jsTrim_idempotent (v : String) : jsTrim (jsTrim v) = jsTrim v := by
  simp [jsTrim, trimChars_idempotent]

theorem jsTrim_eq_empty_iff (v : String) :
    jsTrim v = "" ↔ ∀ c ∈ v.data, isJsWhiteSpace c = true := by
  have h : jsTrim v = "" ↔ trimChars v.data = [] := by
    constructor
    · intro h
      have := congrArg String.data h
      simpa [jsTrim] using this
    · intro h
      simp [jsTrim, h]
  rw [h]
  unfold trimChars
  rw [List.rdropWhile_eq_nil_iff]
  constructor
  · intro h c hc
    by_contra hcw
    have hmem : ∃ x ∈ v.data, ¬ isJsWhiteSpace x = true := ⟨c, hc, hcw⟩
    obtain ⟨x, hx, hxw⟩ := hmem
    have hne : List.dropWhile isJsWhiteSpace v.data ≠ [] := by
      intro hnil
      rw [List.dropWhile_eq_nil_iff] at hnil
      exact hxw (hnil x hx)
    have hh := List.head_dropWhile_not isJsWhiteSpace v.data hne
    have := h _ (List.head_mem hne)
    simp [this] at hh
  · intro h x hx
    exact h x ((List.dropWhile_sublist _).subset hx)

/-! ## Lemmas on the helper functions -/

theorem classListAdd_user (env : Env) :
    classListAdd env [] ["message", "user-message"] = .ok ["message", "user-message"] := rfl

theorem classListAdd_ai (env : Env) :
    classListAdd env [] ["message", "ai-message"] = .ok ["message", "ai-message"] := rfl

theorem classListAdd_system (env : Env) :
    classListAdd env [] ["message", "system-message"] = .ok ["message", "system-message"] := rfl

theorem classListAdd_valid (env : Env) (c : String) (hv : isValidToken c = true) :
    classListAdd env [] ["message", c] =
      .ok (if c = "message" then ["message"] else ["message", c]) := by
  have hm : isValidToken "message" = true := by decide
  by_cases hc : c = "message"
  · subst hc
    rfl
  · have hc2 : ¬ "message" = c := fun h => hc h.symm
    simp [classListAdd, List.find?, hm, hv, hc, hc2]

theorem classListAdd_invalid (env : Env) (c : String) (hv : isValidToken c = false) :
    classListAdd env [] ["message", c] = .error (env.tokenErrorMessage c) := by
  have hm : isValidToken "message" = true := by decide
  simp [classListAdd, List.find?, hm, hv]

theorem addMessage_plain (env : Env) (text : JsValue) (className : String) (isThinking : Bool)
    (s : State) (hv : isValidToken className = true)
    (h : ¬ (className = "ai-message" ∧ isThinking = false)) :
    addMessage env text className isThinking s =
      ({ s with chatWindow := s.chatWindow ++
          [{ classList := if className = "message" then ["message"] else ["message", className],
             id := if isThinking then "thinking-message" else "",
             content := .text text.toTextContent }] }, none) := by
  simp only [addMessage, classListAdd_valid env className hv, if_neg h]

theorem addMessage_chatHistory (env : Env) (text : JsValue) (className : String)
    (isThinking : Bool) (s : State) :
    (addMessage env text className isThinking s).1.chatHistory = s.chatHistory := by
  unfold addMessage
  cases classListAdd env [] ["message", className] with
  | error msg => rfl
  | ok classList =>
    by_cases h : className = "ai-message" ∧ isThinking = false
    · simp only [if_pos h]
      cases env.markedParse text <;> rfl
    · simp only [if_neg h]

theorem start_of_nonempty (env : Env) (s : State) (h : jsTrim s.messageInput.value ≠ "") :
    handleSendMessage_start env s =
      ({ chatWindow := s.chatWindow ++
            [{ classList := ["message", "user-message"], id := "",
               content := .text (jsTrim s.messageInput.value) },
             { classList := ["message", "ai-message"], id := "thinking-message",
               content := .text "Turmeric is thinking..." }]
         messageInput := { value := "", disabled := true, placeholder := "Please wait..." }
         sendButton := { disabled := true }
         chatHistory := s.chatHistory ++
            [{ role := "user", text := .str (jsTrim s.messageInput.value) }]
         effects := s.effects ++
            [Effect.updateChatUI false,
             Effect.fetch
               { message := jsTrim s.messageInput.value
                 history := s.chatHistory ++
                   [{ role := "user", text := .str (jsTrim s.messageInput.value) }] }] },
        .awaiting) := by
  simp [handleSendMessage_start, addMessage, classListAdd_user, classListAdd_ai, updateChatUI, h,
    JsValue.toTextContent]

theorem start_of_empty (env : Env) (s : State) (h : jsTrim s.messageInput.value = "") :
    handleSendMessage_start env s = (s, .returned) := by
  simp [handleSendMessage_start, h]

/-! ## Lemmas on the continuation -/

theorem catchBlock_eq (env : Env) (msg : String) (s : State) :
    catchBlock env msg s =
      ({ s with
          chatWindow := removeById "thinking-message" s.chatWindow ++
            [{ classList := ["message", "system-message"], id := "",
               content := .text ("Error: " ++ msg) }]
          effects := s.effects ++ [Effect.consoleError msg] }, none) := by
  simp [catchBlock, addErrorMessage, addMessage, classListAdd_system, removeThinking,
    JsValue.toTextContent]

theorem resume_of_throw (env : Env) (outcome : FetchOutcome) (s s1 : State) (msg : String)
    (h : tryBlock env outcome s = (s1, some msg)) :
    handleSendMessage_resume env outcome s =
      ({ chatWindow := removeById "thinking-message" s1.chatWindow ++
            [{ classList := ["message", "system-message"], id := "",
               content := .text ("Error: " ++ msg) }]
         messageInput := { s1.messageInput with
            disabled := false, placeholder := "Type your question..." }
         sendButton := { disabled := false }
         chatHistory := s1.chatHistory
         effects := s1.effects ++ [Effect.consoleError msg, Effect.updateChatUI true] },
        none) := by
  simp [handleSendMessage_resume, h, catchBlock_eq, updateChatUI]

theorem resume_of_normal (env : Env) (outcome : FetchOutcome) (s s1 : State)
    (h : tryBlock env outcome s = (s1, none)) :
    handleSendMessage_resume env outcome s = (updateChatUI true s1, none) := by
  simp [handleSendMessage_resume, h]

/-- The three ways in which the `try` block ends: it throws before touching the
page, it throws after the placeholder was removed, or it renders the reply and
records the model turn. -/
theorem tryBlock_cases (env : Env) (outcome : FetchOutcome) (s : State) :
    (∃ msg, tryBlock env outcome s = (s, some msg)) ∨
    (∃ msg, tryBlock env outcome s = (removeThinking s, some msg)) ∨
    (∃ error reply rawHtml, outcome = .response true (.value (.obj error reply)) ∧
      env.markedParse reply = .ok rawHtml ∧
      tryBlock env outcome s =
        ({ s with
            chatWindow := removeById "thinking-message" s.chatWindow ++
              [{ classList := ["message", "ai-message"], id := "",
                 content := .html (env.parseFragment (env.sanitize rawHtml)) }]
            chatHistory := s.chatHistory ++ [{ role := "model", text := reply }] }, none)) := by
  rcases outcome with msg | ⟨ok, json⟩
  · exact Or.inl ⟨msg, rfl⟩
  · cases ok with
    | false =>
      left
      rcases json with msg | data
      · exact ⟨msg, rfl⟩
      · rcases data with _ | ⟨error, reply⟩
        · exact ⟨_, rfl⟩
        · exact ⟨_, rfl⟩
    | true =>
      rcases json with msg | data
      · exact Or.inl ⟨msg, rfl⟩
      · rcases data with _ | ⟨error, reply⟩
        · exact Or.inr (Or.inl ⟨_, rfl⟩)
        · cases hp : env.markedParse reply with
          | error msg =>
            refine Or.inr (Or.inl ⟨msg, ?_⟩)
            simp [tryBlock, JsData.readReply, addMessage, classListAdd_ai, hp]
          | ok rawHtml =>
            refine Or.inr (Or.inr ⟨error, reply, rawHtml, rfl, hp, ?_⟩)
            simp [tryBlock, JsData.readReply, addMessage, classListAdd_ai, hp, removeThinking]

theorem tryBlock_of_failure (env : Env) (outcome : FetchOutcome) (s : State)
    (hf : (∃ msg, outcome = .rejected msg) ∨ (∃ json, outcome = .response false json)) :
    ∃ msg, tryBlock env outcome s = (s, some msg) := by
  rcases hf with ⟨msg, rfl⟩ | ⟨json, rfl⟩
  · exact ⟨msg, rfl⟩
  · rcases json with msg | data
    · exact ⟨msg, rfl⟩
    · rcases data with _ | ⟨error, reply⟩
      · exact ⟨_, rfl⟩
      · exact ⟨_, rfl⟩

theorem handleSendMessage_of_nonempty (env : Env) (outcome : FetchOutcome) (s : State)
    (h : jsTrim s.messageInput.value ≠ "") :
    handleSendMessage env outcome s =
      handleSendMessage_resume env outcome (handleSendMessage_start env s).1 := by
  simp [handleSendMessage, start_of_nonempty env s h]

/-- The effects and the input affordances left by the continuation: the effect
log grows by an optional `console.error` followed by one `updateChatUI(true)`,
the call completes normally, and the affordances are those set by
`updateChatUI(true)`. -/
theorem resume_effects (env : Env) (outcome : FetchOutcome) (s : State) :
    (handleSendMessage_resume env outcome s).2 = none ∧
    ((handleSendMessage_resume env outcome s).1.effects =
        s.effects ++ [Effect.updateChatUI true] ∨
      ∃ msg, (handleSendMessage_resume env outcome s).1.effects =
        s.effects ++ [Effect.consoleError msg, Effect.updateChatUI true]) ∧
    (handleSendMessage_resume env outcome s).1.messageInput =
      { s.messageInput with disabled := false, placeholder := "Type your question..." } ∧
    (handleSendMessage_resume env outcome s).1.sendButton = { disabled := false } := by
  rcases tryBlock_cases env outcome s with ⟨msg, h⟩ | ⟨msg, h⟩ | ⟨error, reply, rawHtml, -, -, h⟩
  · rw [resume_of_throw env outcome s _ msg h]
    exact ⟨rfl, Or.inr ⟨msg, rfl⟩, rfl, rfl⟩
  · rw [resume_of_throw env outcome s _ msg h]
    exact ⟨rfl, Or.inr ⟨msg, rfl⟩, rfl, rfl⟩
  · rw [resume_of_normal env outcome s _ h]
    exact ⟨rfl, Or.inl rfl, rfl, rfl⟩

theorem addMessage_invalid_token (env : Env) (text : JsValue) (c : String) (isThinking : Bool)
    (s : State) (hv : isValidToken c = false) :
    addMessage env text c isThinking s = (s, some (env.tokenErrorMessage c)) := by
  simp only [addMessage, classListAdd_invalid env c hv]

/-! ## Lemmas on the busy gate -/

theorem start_status (env : Env) (s : State) :
    handleSendMessage_start env s = (s, .returned) ∨
    ((handleSendMessage_start env s).2 = .awaiting ∧
      (handleSendMessage_start env s).1.messageInput.disabled = true ∧
      (handleSendMessage_start env s).1.sendButton.disabled = true) := by
  by_cases h : jsTrim s.messageInput.value = ""
  · exact Or.inl (start_of_empty env s h)
  · rw [start_of_nonempty env s h]
    exact Or.inr ⟨rfl, rfl, rfl⟩

theorem entry_points_gated (env : Env) (s : State) (h : s.sendButton.disabled = true) :
    dispatchClick env s = (s, .returned) ∧ ∀ key, onKeypress env key s = (s, .returned) := by
  refine ⟨by simp [dispatchClick, h], fun key => by simp [onKeypress, h]⟩

theorem afterListener_invariant (env : Env) (p : Page)
    (h0 : p.inFlight = 0) :
    ((afterListener p (handleSendMessage_start env p.state)).inFlight = 0 ∧
      (afterListener p (handleSendMessage_start env p.state)).state = p.state) ∨
    ((afterListener p (handleSendMessage_start env p.state)).inFlight = 1 ∧
      (afterListener p (handleSendMessage_start env p.state)).state.messageInput.disabled = true ∧
      (afterListener p (handleSendMessage_start env p.state)).state.sendButton.disabled = true) := by
  rcases start_status env p.state with h | ⟨h2, hi, hb⟩
  · left
    simp [afterListener, h, h0]
  · right
    simp [afterListener, h2, h0, hi, hb]

/-- The invariant of the page: either no request is outstanding and the send
button is enabled, or exactly one is outstanding and the input field and the
send button are disabled. -/
theorem page_invariant (env : Env) (p : Page) (h : PageReachable env p) :
    (p.inFlight = 0 ∧ p.state.sendButton.disabled = false) ∨
    (p.inFlight = 1 ∧ p.state.messageInput.disabled = true ∧
      p.state.sendButton.disabled = true) := by
  induction h with
  | init dom hd => exact Or.inl ⟨rfl, rfl⟩
  | next ev p _ ih =>
    cases ev with
    | click =>
      rcases ih with ⟨h0, hb⟩ | ⟨h1, hi, hb⟩
      · have hd : dispatchClick env p.state = handleSendMessage_start env p.state := by
          simp [dispatchClick, hb, onClick]
        simp only [pageStep, hd]
        rcases afterListener_invariant env p h0 with ⟨ha, hs⟩ | hbusy
        · exact Or.inl ⟨ha, by rw [hs]; exact hb⟩
        · exact Or.inr hbusy
      · right
        simp only [pageStep, (entry_points_gated env p.state hb).1]
        exact ⟨by simp [afterListener, h1], hi, hb⟩
    | keypress key =>
      rcases ih with ⟨h0, hb⟩ | ⟨h1, hi, hb⟩
      · by_cases hk : key = "Enter"
        · have hd : onKeypress env key p.state = handleSendMessage_start env p.state := by
            simp [onKeypress, hb, hk]
          simp only [pageStep, hd]
          rcases afterListener_invariant env p h0 with ⟨ha, hs⟩ | hbusy
          · exact Or.inl ⟨ha, by rw [hs]; exact hb⟩
          · exact Or.inr hbusy
        · have hd : onKeypress env key p.state = (p.state, .returned) := by
            simp [onKeypress, hk]
          left
          simp only [pageStep, hd]
          exact ⟨by simp [afterListener, h0], hb⟩
      · right
        simp only [pageStep, (entry_points_gated env p.state hb).2 key]
        exact ⟨by simp [afterListener, h1], hi, hb⟩
    | edit value =>
      rcases ih with ⟨h0, hb⟩ | ⟨h1, hi, hb⟩
      · exact Or.inl ⟨h0, hb⟩
      · exact Or.inr ⟨h1, hi, hb⟩
    | settle outcome =>
      rcases ih with ⟨h0, hb⟩ | ⟨h1, hi, hb⟩
      · left
        simp only [pageStep, if_pos h0]
        exact ⟨h0, hb⟩
      · left
        have hne : ¬ p.inFlight = 0 := by omega
        simp only [pageStep, if_neg hne]
        obtain ⟨-, -, -, hbtn⟩ := resume_effects env outcome p.state
        exact ⟨by simp [h1], by rw [hbtn]⟩

/-! ## Lemmas on the transcript -/

theorem start_chatHistory (env : Env) (s : State) :
    (handleSendMessage_start env s).1.chatHistory = s.chatHistory ∨
    (jsTrim s.messageInput.value ≠ "" ∧
      (handleSendMessage_start env s).1.chatHistory =
        s.chatHistory ++ [{ role := "user", text := .str (jsTrim s.messageInput.value) }]) := by
  by_cases h : jsTrim s.messageInput.value = ""
  · rw [start_of_empty env s h]
    exact Or.inl rfl
  · rw [start_of_nonempty env s h]
    exact Or.inr ⟨h, rfl⟩

theorem resume_chatHistory (env : Env) (outcome : FetchOutcome) (s : State) :
    (handleSendMessage_resume env outcome s).1.chatHistory = s.chatHistory ∨
    ∃ reply, (handleSendMessage_resume env outcome s).1.chatHistory =
      s.chatHistory ++ [{ role := "model", text := reply }] := by
  rcases tryBlock_cases env outcome s with ⟨msg, h⟩ | ⟨msg, h⟩ | ⟨error, reply, rawHtml, -, -, h⟩
  · rw [resume_of_throw env outcome s _ msg h]
    exact Or.inl rfl
  · rw [resume_of_throw env outcome s _ msg h]
    exact Or.inl rfl
  · rw [resume_of_normal env outcome s _ h]
    exact Or.inr ⟨reply, rfl⟩

theorem step_chatHistory (env : Env) (ev : Event) (s : State) :
    (step env ev s).chatHistory = s.chatHistory ∨
    (∃ v, jsTrim v ≠ "" ∧
      (step env ev s).chatHistory = s.chatHistory ++ [{ role := "user", text := .str (jsTrim v) }]) ∨
    ∃ reply, (step env ev s).chatHistory = s.chatHistory ++ [{ role := "model", text := reply }] := by
  cases ev with
  | click =>
    rcases start_chatHistory env s with h | ⟨hv, h⟩
    · exact Or.inl h
    · exact Or.inr (Or.inl ⟨_, hv, h⟩)
  | keypress key =>
    by_cases hk : key = "Enter" ∧ s.sendButton.disabled = false
    · simp only [step, onKeypress, if_pos hk]
      rcases start_chatHistory env s with h | ⟨hv, h⟩
      · exact Or.inl h
      · exact Or.inr (Or.inl ⟨_, hv, h⟩)
    · left
      simp only [step, onKeypress, if_neg hk]
  | edit value =>
    left
    rfl
  | settle outcome =>
    rcases resume_chatHistory env outcome s with h | ⟨reply, h⟩
    · exact Or.inl h
    · exact Or.inr (Or.inr ⟨reply, h⟩)
  | addMessage text className isThinking => exact Or.inl (addMessage_chatHistory _ _ _ _ _)
  | addErrorMessage text => exact Or.inl (addMessage_chatHistory _ _ _ _ _)
  | updateChatUI enabled =>
    left
    rfl

theorem wellFormed_user (v : String) (h : jsTrim v ≠ "") :
    Turn.wellFormed { role := "user", text := .str (jsTrim v) } = true := by
  simp [Turn.wellFormed, JsValue.isTrimmedNonEmpty, jsTrim_idempotent, h]

theorem wellFormed_model (reply : JsValue) :
    Turn.wellFormed { role := "model", text := reply } = true := by
  simp [Turn.wellFormed]

theorem reachable_wellFormed (env : Env) (s : State) (h : Reachable env s) :
    ∀ t ∈ s.chatHistory, t.wellFormed = true := by
  induction h with
  | init dom hd =>
    intro t ht
    have : (updateChatUI true dom).chatHistory = [] := hd
    rw [this] at ht
    exact absurd ht (List.not_mem_nil t)
  | next ev s _ ih =>
    intro t ht
    rcases step_chatHistory env ev s with h | ⟨v, hv, h⟩ | ⟨reply, h⟩
    · rw [h] at ht
      exact ih t ht
    · rw [h, List.mem_append, List.mem_singleton] at ht
      rcases ht with ht | rfl
      · exact ih t ht
      · exact wellFormed_user v hv
    · rw [h, List.mem_append, List.mem_singleton] at ht
      rcases ht with ht | rfl
      · exact ih t ht
      · exact wellFormed_model reply

/-- A whole call whose `try` block throws before touching the page. -/
theorem handleSendMessage_of_throw (env : Env) (outcome : FetchOutcome) (s : State) (msg : String)
    (hm : jsTrim s.messageInput.value ≠ "")
    (h : tryBlock env outcome (handleSendMessage_start env s).1 =
      ((handleSendMessage_start env s).1, some msg)) :
    handleSendMessage env outcome s =
      ({ chatWindow :=
            removeById "thinking-message"
              (s.chatWindow ++
                [{ classList := ["message", "user-message"], id := "",
                   content := .text (jsTrim s.messageInput.value) },
                 { classList := ["message", "ai-message"], id := "thinking-message",
                   content := .text "Turmeric is thinking..." }]) ++
              [{ classList := ["message", "system-message"], id := "",
                 content := .text ("Error: " ++ msg) }]
         messageInput := { value := "", disabled := false, placeholder := "Type your question..." }
         sendButton := { disabled := false }
         chatHistory := s.chatHistory ++
            [{ role := "user", text := .str (jsTrim s.messageInput.value) }]
         effects := s.effects ++
            [Effect.updateChatUI false,
             Effect.fetch
               { message := jsTrim s.messageInput.value
                 history := s.chatHistory ++
                   [{ role := "user", text := .str (jsTrim s.messageInput.value) }] }] ++
            [Effect.consoleError msg, Effect.updateChatUI true] }, none) := by
  rw [handleSendMessage_of_nonempty env _ s hm, resume_of_throw env _ _ _ msg h,
    start_of_nonempty env s hm]

/-! ## The claims -/

/-- C1: for every prior transcript and every input whose trimmed text `m` is not
empty, when the backend answers with a success response carrying reply `r` and
rendering `r` does not throw, the call completes normally and the transcript is
the prior one followed by the user turn for `m` and then the model turn for
`r`: two turns longer, with the prior transcript as a prefix. -/
theorem handleSendMessage_success_transcript (env : Env) (s : State) (error r : JsValue)
    (rawHtml : String) (hm : jsTrim s.messageInput.value ≠ "")
    (hr : env.markedParse r = .ok rawHtml) :
    (handleSendMessage env (.response true (.value (.obj error r))) s).2 = none ∧
    (handleSendMessage env (.response true (.value (.obj error r))) s).1.chatHistory =
      s.chatHistory ++
        [{ role := "user", text := .str (jsTrim s.messageInput.value) },
         { role := "model", text := r }] ∧
    (handleSendMessage env (.response true (.value (.obj error r))) s).1.chatHistory.length =
      s.chatHistory.length + 2 ∧
    s.chatHistory <+:
      (handleSendMessage env (.response true (.value (.obj error r))) s).1.chatHistory := by
  have hrun : handleSendMessage env (.response true (.value (.obj error r))) s =
      (updateChatUI true
        { (handleSendMessage_start env s).1 with
          chatWindow :=
            removeById "thinking-message" (handleSendMessage_start env s).1.chatWindow ++
              [{ classList := ["message", "ai-message"], id := "",
                 content := .html (env.parseFragment (env.sanitize rawHtml)) }]
          chatHistory := (handleSendMessage_start env s).1.chatHistory ++
            [{ role := "model", text := r }] }, none) := by
    rw [handleSendMessage_of_nonempty env _ s hm]
    apply resume_of_normal
    simp [tryBlock, JsData.readReply, addMessage, classListAdd_ai, hr, removeThinking]
  rw [hrun, start_of_nonempty env s hm]
  refine ⟨rfl, ?_, ?_, ?_⟩
  · simp [updateChatUI]
  · simp [updateChatUI]
  · exact ⟨_, by simp [updateChatUI]; rfl⟩

/-- Witness for C1: the scenario of the specification, `"Hello"` answered by
the reply `"**Hi!**"`. -/
theorem handleSendMessage_success_transcript_witness :
    jsTrim (typed "Hello").messageInput.value ≠ "" ∧
    sampleEnv.markedParse (.str "**Hi!**") = .ok "<p>**Hi!**</p>" ∧
    (handleSendMessage sampleEnv (.response true (.value (.obj .undefined (.str "**Hi!**"))))
        (typed "Hello")).1.chatHistory =
      (typed "Hello").chatHistory ++
        [{ role := "user", text := .str (jsTrim (typed "Hello").messageInput.value) },
         { role := "model", text := .str "**Hi!**" }] :=
  ⟨by decide, rfl,
    (handleSendMessage_success_transcript sampleEnv (typed "Hello") .undefined (.str "**Hi!**")
      "<p>**Hi!**</p>" (by decide) rfl).2.1⟩

/-- C2: for every prior transcript and every input whose trimmed text `m` is not
empty, when the request fails (the fetch rejects, or the response has a
non-success status) the call completes normally, the transcript is the prior one
followed by the user turn for `m` only (one turn longer, no model turn), and the
log ends with a new element of class `system-message` holding the error text;
that element is a child of the log and no turn of the transcript. -/
theorem handleSendMessage_failure_transcript (env : Env) (s : State) (outcome : FetchOutcome)
    (hm : jsTrim s.messageInput.value ≠ "")
    (hf : (∃ msg, outcome = .rejected msg) ∨ (∃ json, outcome = .response false json)) :
    (handleSendMessage env outcome s).2 = none ∧
    (handleSendMessage env outcome s).1.chatHistory =
      s.chatHistory ++ [{ role := "user", text := .str (jsTrim s.messageInput.value) }] ∧
    (handleSendMessage env outcome s).1.chatHistory.length = s.chatHistory.length + 1 ∧
    ∃ msg, (handleSendMessage env outcome s).1.chatWindow =
      removeById "thinking-message"
        (s.chatWindow ++
          [{ classList := ["message", "user-message"], id := "",
             content := .text (jsTrim s.messageInput.value) },
           { classList := ["message", "ai-message"], id := "thinking-message",
             content := .text "Turmeric is thinking..." }]) ++
        [{ classList := ["message", "system-message"], id := "",
           content := .text ("Error: " ++ msg) }] := by
  obtain ⟨msg, htry⟩ := tryBlock_of_failure env outcome (handleSendMessage_start env s).1 hf
  rw [handleSendMessage_of_throw env outcome s msg hm htry]
  refine ⟨rfl, rfl, by simp, msg, rfl⟩

/-- Witness for C2: `"Hello"` answered by a non-success response with the body
`{error: "rate limited"}`. -/
theorem handleSendMessage_failure_transcript_witness :
    jsTrim (typed "Hello").messageInput.value ≠ "" ∧
    (handleSendMessage sampleEnv
        (.response false (.value (.obj (.str "rate limited") .undefined)))
        (typed "Hello")).1.chatHistory =
      (typed "Hello").chatHistory ++
        [{ role := "user", text := .str (jsTrim (typed "Hello").messageInput.value) }] :=
  ⟨by decide,
    (handleSendMessage_failure_transcript sampleEnv (typed "Hello")
      (.response false (.value (.obj (.str "rate limited") .undefined)))
      (by decide) (Or.inr ⟨_, rfl⟩)).2.1⟩

/-- C3: when the value of the input field is empty or consists of white space
only, `handleSendMessage` returns at once and the whole state is unchanged: the
transcript, the log, the input field (value, enabled state, placeholder), the
send button and the effect log, so that no request is issued. -/
theorem handleSendMessage_blank_noop (env : Env) (outcome : FetchOutcome) (s : State)
    (h : ∀ c ∈ s.messageInput.value.data, isJsWhiteSpace c = true) :
    handleSendMessage_start env s = (s, .returned) ∧
    handleSendMessage env outcome s = (s, none) := by
  have he : jsTrim s.messageInput.value = "" := (jsTrim_eq_empty_iff _).mpr h
  have hs := start_of_empty env s he
  refine ⟨hs, ?_⟩
  simp [handleSendMessage, hs]

/-- Witness for C3: an input field holding a blank, a tab and a line feed. -/
theorem handleSendMessage_blank_noop_witness :
    (∀ c ∈ (typed " \t\n").messageInput.value.data, isJsWhiteSpace c = true) ∧
    handleSendMessage_start sampleEnv (typed " \t\n") = (typed " \t\n", .returned) ∧
    handleSendMessage sampleEnv (.rejected "offline") (typed " \t\n") = (typed " \t\n", none) :=
  ⟨by decide, handleSendMessage_blank_noop sampleEnv (.rejected "offline") (typed " \t\n")
    (by decide)⟩

/-- C4: for every call with non-empty trimmed input and every way in which the
request settles, the prefix suspends with the input field and the send button
disabled and the placeholder `"Please wait..."`; the continuation completes
normally, executes `updateChatUI(true)` exactly once (and the whole call
executes it exactly once), and leaves the input field and the send button
enabled with the placeholder `"Type your question..."`. -/
theorem handleSendMessage_reenables_once (env : Env) (outcome : FetchOutcome) (s : State)
    (hm : jsTrim s.messageInput.value ≠ "") :
    ((handleSendMessage_start env s).2 = .awaiting ∧
      (handleSendMessage_start env s).1.messageInput.disabled = true ∧
      (handleSendMessage_start env s).1.sendButton.disabled = true ∧
      (handleSendMessage_start env s).1.messageInput.placeholder = "Please wait...") ∧
    (∃ ext, (handleSendMessage env outcome s).1.effects =
        (handleSendMessage_start env s).1.effects ++ ext ∧
      ext.count (Effect.updateChatUI true) = 1) ∧
    (∃ all, (handleSendMessage env outcome s).1.effects = s.effects ++ all ∧
      all.count (Effect.updateChatUI true) = 1) ∧
    (handleSendMessage env outcome s).2 = none ∧
    (handleSendMessage env outcome s).1.messageInput.disabled = false ∧
    (handleSendMessage env outcome s).1.sendButton.disabled = false ∧
    (handleSendMessage env outcome s).1.messageInput.placeholder = "Type your question..." := by
  obtain ⟨h2, heff, hin, hbtn⟩ := resume_effects env outcome (handleSendMessage_start env s).1
  rw [handleSendMessage_of_nonempty env outcome s hm]
  refine ⟨?_, ?_, ?_, h2, ?_, ?_, ?_⟩
  · rw [start_of_nonempty env s hm]
    exact ⟨rfl, rfl, rfl, rfl⟩
  · rcases heff with h | ⟨msg, h⟩
    · exact ⟨_, h, by decide⟩
    · exact ⟨_, h, by simp [List.count_cons]⟩
  · rcases heff with h | ⟨msg, h⟩
    · rw [h, start_of_nonempty env s hm]
      exact ⟨_, List.append_assoc _ _ _, by simp [List.count_cons]⟩
    · rw [h, start_of_nonempty env s hm]
      exact ⟨_, List.append_assoc _ _ _, by simp [List.count_cons]⟩
  · rw [hin]
  · rw [hbtn]
  · rw [hin]

/-- Witness for C4: `"Hello"` answered by a success response whose body has no
`reply`, so that rendering throws. -/
theorem handleSendMessage_reenables_once_witness :
    jsTrim (typed "Hello").messageInput.value ≠ "" ∧
    (handleSendMessage sampleEnv (.response true (.value (.obj .undefined .undefined)))
      (typed "Hello")).1.sendButton.disabled = false :=
  ⟨by decide, (handleSendMessage_reenables_once sampleEnv
    (.response true (.value (.obj .undefined .undefined))) (typed "Hello")
    (by decide)).2.2.2.2.2.1⟩

/-- C5, as stated, fails: with an empty prior transcript and the message
`"Hello"`, the request carries the history `[{user, "Hello"}]`, and no request
with the empty prior transcript as history is issued. -/
theorem request_history_counterexample :
    (handleSendMessage_start sampleEnv (typed "Hello")).1.effects =
      [Effect.updateChatUI false,
       Effect.fetch { message := "Hello", history := [{ role := "user", text := .str "Hello" }] }] ∧
    Effect.fetch { message := "Hello", history := (typed "Hello").chatHistory } ∉
      (handleSendMessage_start sampleEnv (typed "Hello")).1.effects := by
  decide

/-- C5, amended: for every prior transcript `H` and every non-empty trimmed
message `m`, the prefix of `handleSendMessage` issues exactly one request, which
carries `message = m` and `history = H` followed by the user turn for `m`; the
continuation issues none. -/
theorem request_carries_full_history (env : Env) (outcome : FetchOutcome) (s : State)
    (hm : jsTrim s.messageInput.value ≠ "") :
    (handleSendMessage_start env s).1.effects =
      s.effects ++
        [Effect.updateChatUI false,
         Effect.fetch
           { message := jsTrim s.messageInput.value
             history := s.chatHistory ++
               [{ role := "user", text := .str (jsTrim s.messageInput.value) }] }] ∧
    ∃ ext, (handleSendMessage env outcome s).1.effects =
        (handleSendMessage_start env s).1.effects ++ ext ∧
      ∀ req, Effect.fetch req ∉ ext := by
  obtain ⟨-, heff, -, -⟩ := resume_effects env outcome (handleSendMessage_start env s).1
  rw [handleSendMessage_of_nonempty env outcome s hm]
  refine ⟨by rw [start_of_nonempty env s hm], ?_⟩
  rcases heff with h | ⟨msg, h⟩
  · exact ⟨_, h, by simp⟩
  · exact ⟨_, h, by simp⟩

/-- Witness for C5 amended: the message `"Hello"` on an empty transcript. -/
theorem request_carries_full_history_witness :
    jsTrim (typed "Hello").messageInput.value ≠ "" ∧
    (handleSendMessage_start sampleEnv (typed "Hello")).1.effects =
      (typed "Hello").effects ++
        [Effect.updateChatUI false,
         Effect.fetch
           { message := jsTrim (typed "Hello").messageInput.value
             history := (typed "Hello").chatHistory ++
               [{ role := "user", text := .str (jsTrim (typed "Hello").messageInput.value) }] }] :=
  ⟨by decide, (request_carries_full_history sampleEnv (.rejected "offline") (typed "Hello")
    (by decide)).1⟩

/-- C6: for every text `t`, every class name `c` (a valid class token) and flag
`isThinking`: when `c` is `ai-message` and `isThinking` is false the new element
holds markup, namely what the assignment of `sanitize` of the output of the
Markdown renderer on `t` to `innerHTML` produces (whenever the renderer
returns); in every other case it holds the literal text `t`, and never markup.
In both cases the log is the previous one with that single element appended at
the end, and nothing else of the state changes. -/
theorem addMessage_content (env : Env) (t c : String) (isThinking : Bool) (s : State)
    (hv : isValidToken c = true) :
    (c = "ai-message" ∧ isThinking = false →
      ∀ rawHtml, env.markedParse (.str t) = .ok rawHtml →
        addMessage env (.str t) c isThinking s =
          ({ s with chatWindow := s.chatWindow ++
              [{ classList := ["message", c], id := "",
                 content := .html (env.parseFragment (env.sanitize rawHtml)) }] }, none)) ∧
    (¬ (c = "ai-message" ∧ isThinking = false) →
      addMessage env (.str t) c isThinking s =
        ({ s with chatWindow := s.chatWindow ++
            [{ classList := if c = "message" then ["message"] else ["message", c],
               id := if isThinking then "thinking-message" else "",
               content := .text t }] }, none)) := by
  constructor
  · rintro ⟨hc, hth⟩ rawHtml hr
    subst hc
    simp [addMessage, classListAdd_ai, hth, hr]
  · intro h
    rw [addMessage_plain env _ c isThinking s hv h]
    rfl

/-- Witness for C6: a reply is rendered as sanitized markup, while the user
text `<b>hi</b>` and the thinking placeholder are inserted as literal text. -/
theorem addMessage_content_witness :
    isValidToken "ai-message" = true ∧ isValidToken "user-message" = true ∧
    addMessage sampleEnv (.str "**Hi!**") "ai-message" false idleState =
      ({ idleState with chatWindow :=
          [{ classList := ["message", "ai-message"], id := "",
             content := .html (.element "p" "" (.text "**Hi!**" .nil) .nil) }] }, none) ∧
    addMessage sampleEnv (.str "<b>hi</b>") "user-message" false idleState =
      ({ idleState with chatWindow :=
          [{ classList := ["message", "user-message"], id := "",
             content := .text "<b>hi</b>" }] }, none) ∧
    addMessage sampleEnv (.str "<b>hi</b>") "ai-message" true idleState =
      ({ idleState with chatWindow :=
          [{ classList := ["message", "ai-message"], id := "thinking-message",
             content := .text "<b>hi</b>" }] }, none) :=
  ⟨by decide, by decide,
    (addMessage_content sampleEnv "**Hi!**" "ai-message" false idleState (by decide)).1
      ⟨rfl, rfl⟩ "<p>**Hi!**</p>" rfl,
    (addMessage_content sampleEnv "<b>hi</b>" "user-message" false idleState (by decide)).2
      (by decide),
    (addMessage_content sampleEnv "<b>hi</b>" "ai-message" true idleState (by decide)).2
      (by decide)⟩

/-- C7, as stated, fails: for the body `{error: "rate limited"}` the error turn
holds the text `"Error: rate limited"`, which is not the `error` field itself,
and for the body `{error: ""}`, which has an `error` field, it holds the text
`"Error: Error from server"`. -/
theorem error_text_counterexample :
    ((handleSendMessage sampleEnv
          (.response false (.value (.obj (.str "rate limited") .undefined)))
          (typed "Hello")).1.chatWindow.getLast? =
        some { classList := ["message", "system-message"], id := "",
               content := .text "Error: rate limited" } ∧
      Content.text "Error: rate limited" ≠ Content.text "rate limited") ∧
    ((handleSendMessage sampleEnv
          (.response false (.value (.obj (.str "") .undefined)))
          (typed "Hello")).1.chatWindow.getLast? =
        some { classList := ["message", "system-message"], id := "",
               content := .text "Error: Error from server" } ∧
      Content.text "Error: Error from server" ≠ Content.text "") := by
  decide

/-- C7, amended: every response with a non-success status is treated as a
failure: the call completes normally, no model turn is recorded, and the log
ends with an error turn whose text starts with `"Error: "`.  When the body
parses to an object, the rest of the text is the `error` field if that is a
non-empty string, and `"Error from server"` if the field is absent, `null` or
the empty string; for `{error: "rate limited"}` the turn holds
`"Error: rate limited"`. -/
theorem nonok_error_text (env : Env) (s : State) (json : JsonResult)
    (hm : jsTrim s.messageInput.value ≠ "") :
    (handleSendMessage env (.response false json) s).2 = none ∧
    (handleSendMessage env (.response false json) s).1.chatHistory =
      s.chatHistory ++ [{ role := "user", text := .str (jsTrim s.messageInput.value) }] ∧
    (∃ msg, (handleSendMessage env (.response false json) s).1.chatWindow.getLast? =
      some { classList := ["message", "system-message"], id := "",
             content := .text ("Error: " ++ msg) }) ∧
    (∀ e reply, json = .value (.obj (.str e) reply) → e ≠ "" →
      (handleSendMessage env (.response false json) s).1.chatWindow.getLast? =
        some { classList := ["message", "system-message"], id := "",
               content := .text ("Error: " ++ e) }) ∧
    (∀ error reply, json = .value (.obj error reply) →
      error = .undefined ∨ error = .null ∨ error = .str "" →
      (handleSendMessage env (.response false json) s).1.chatWindow.getLast? =
        some { classList := ["message", "system-message"], id := "",
               content := .text "Error: Error from server" }) := by
  have key : ∀ msg, tryBlock env (.response false json) (handleSendMessage_start env s).1 =
        ((handleSendMessage_start env s).1, some msg) →
      (handleSendMessage env (.response false json) s).1.chatWindow.getLast? =
        some { classList := ["message", "system-message"], id := "",
               content := .text ("Error: " ++ msg) } := by
    intro msg h
    rw [handleSendMessage_of_throw env _ s msg hm h]
    simp
  obtain ⟨msg, hmsg⟩ := tryBlock_of_failure env (.response false json)
      (handleSendMessage_start env s).1 (Or.inr ⟨json, rfl⟩)
  refine ⟨?_, ?_, ⟨msg, key msg hmsg⟩, ?_, ?_⟩
  · rw [handleSendMessage_of_throw env _ s msg hm hmsg]
  · rw [handleSendMessage_of_throw env _ s msg hm hmsg]
  · rintro e reply rfl he
    apply key
    simp [tryBlock, JsData.readError, JsValue.orElse, JsValue.truthy, he,
      JsValue.newErrorMessage]
  · rintro error reply rfl herr
    have := key "Error from server" (by
      rcases herr with rfl | rfl | rfl <;>
        simp [tryBlock, JsData.readError, JsValue.orElse, JsValue.truthy,
          JsValue.newErrorMessage])
    simpa using this

/-- Witness for C7 amended: the body `{error: "rate limited"}`. -/
theorem nonok_error_text_witness :
    jsTrim (typed "Hello").messageInput.value ≠ "" ∧
    (handleSendMessage sampleEnv
        (.response false (.value (.obj (.str "rate limited") .undefined)))
        (typed "Hello")).1.chatWindow.getLast? =
      some { classList := ["message", "system-message"], id := "",
             content := .text ("Error: " ++ "rate limited") } :=
  ⟨by decide, (nonok_error_text sampleEnv (typed "Hello")
    (.value (.obj (.str "rate limited") .undefined)) (by decide)).2.2.2.1
    "rate limited" .undefined rfl (by decide)⟩

/-- C8: on every page of a session at most one request is outstanding, and
while one is outstanding the input field and the send button are disabled and
both entry points are shut, whatever the text of the input field: a click on
the send button is not delivered to `handleSendMessage`, the keypress listener
skips the call for every key, and either event leaves the whole page unchanged,
so that no turn is recorded, nothing is rendered and no second request is
issued. -/
theorem busy_gate (env : Env) (p : Page) (h : PageReachable env p) :
    p.inFlight ≤ 1 ∧
    (0 < p.inFlight →
      p.state.messageInput.disabled = true ∧ p.state.sendButton.disabled = true ∧
      dispatchClick env p.state = (p.state, .returned) ∧
      (∀ key, onKeypress env key p.state = (p.state, .returned)) ∧
      pageStep env .click p = p ∧
      (∀ key, pageStep env (.keypress key) p = p)) := by
  rcases page_invariant env p h with ⟨h0, -⟩ | ⟨h1, hi, hb⟩
  · exact ⟨by omega, fun hpos => absurd hpos (by omega)⟩
  · obtain ⟨hclick, hkey⟩ := entry_points_gated env p.state hb
    refine ⟨by omega, fun _ => ⟨hi, hb, hclick, hkey, ?_, fun key => ?_⟩⟩
    · simp [pageStep, hclick, afterListener]
    · simp [pageStep, hkey key, afterListener]

/-- Witness for C8: with `"Hello"` outstanding and `"again"` in the input
field, a click and the key Enter both leave the page as it is. -/
theorem busy_gate_witness :
    0 < waitingPage.inFlight ∧ jsTrim waitingPage.state.messageInput.value ≠ "" ∧
    pageStep sampleEnv .click waitingPage = waitingPage ∧
    pageStep sampleEnv (.keypress "Enter") waitingPage = waitingPage :=
  ⟨by decide, by decide,
    ((busy_gate sampleEnv waitingPage
      (PageReachable.next _ _ (PageReachable.next _ _ (PageReachable.next _ _
        (PageReachable.init idleState rfl))))).2 (by decide)).2.2.2.2.1,
    ((busy_gate sampleEnv waitingPage
      (PageReachable.next _ _ (PageReachable.next _ _ (PageReachable.next _ _
        (PageReachable.init idleState rfl))))).2 (by decide)).2.2.2.2.2 "Enter"⟩

/-- C9, the code at the failing input: `"Hello"` is answered by a reply holding
a span with id `thinking-message`, then `"again"` is answered by `"ok"`.  After
the first call the log holds an element with that id (the span inside the
reply), although no child of the log is a placeholder; in the second call the
lookup by id finds that span first and removes it, and the placeholder
`"Turmeric is thinking..."` is still in the log when the call has completed. -/
theorem placeholder_left_behind :
    thinkingCount (typed "Hello") = 0 ∧
    thinkingCount afterSpanReply = 1 ∧
    (∀ e ∈ afterSpanReply.chatWindow, e.id ≠ "thinking-message") ∧
    afterSecondReply.chatWindow =
      [{ classList := ["message", "user-message"], id := "", content := .text "Hello" },
       { classList := ["message", "ai-message"], id := "",
         content := .html (.element "p" "" .nil .nil) },
       { classList := ["message", "user-message"], id := "", content := .text "again" },
       { classList := ["message", "ai-message"], id := "thinking-message",
         content := .text "Turmeric is thinking..." },
       { classList := ["message", "ai-message"], id := "",
         content := .html (.element "p" "" (.text "ok" .nil) .nil) }] ∧
    thinkingCount afterSecondReply = 1 := by
  decide

/-- C10: in every reachable state the transcript is well-formed (every turn
has role `user` or `model`, and the text of every user turn is a string equal to
its own trim and not empty), and every operation keeps the transcript as a
prefix of the new one: each listener and helper call, the continuation on any
outcome, and a whole call of `handleSendMessage` on any outcome, the resulting
state being reachable and well-formed again; `updateChatUI`, `addMessage` and
`addErrorMessage` leave the transcript unchanged. -/
theorem transcript_append_only (env : Env) (s : State) (h : Reachable env s) :
    (∀ t ∈ s.chatHistory, t.wellFormed = true) ∧
    (∀ ev, s.chatHistory <+: (step env ev s).chatHistory ∧
      ∀ t ∈ (step env ev s).chatHistory, t.wellFormed = true) ∧
    (∀ outcome, s.chatHistory <+: (handleSendMessage env outcome s).1.chatHistory ∧
      ∀ t ∈ (handleSendMessage env outcome s).1.chatHistory, t.wellFormed = true) ∧
    (∀ enabled, (updateChatUI enabled s).chatHistory = s.chatHistory) ∧
    (∀ text className isThinking,
      (addMessage env text className isThinking s).1.chatHistory = s.chatHistory) ∧
    (∀ text, (addErrorMessage env text s).1.chatHistory = s.chatHistory) := by
  have hpre : ∀ (ev : Event) (a : State), a.chatHistory <+: (step env ev a).chatHistory := by
    intro ev a
    rcases step_chatHistory env ev a with h | ⟨v, -, h⟩ | ⟨reply, h⟩
    · rw [h]
    · rw [h]
      exact List.prefix_append _ _
    · rw [h]
      exact List.prefix_append _ _
  refine ⟨reachable_wellFormed env s h, ?_, ?_, fun _ => rfl,
    fun _ _ _ => addMessage_chatHistory _ _ _ _ _, fun _ => addMessage_chatHistory _ _ _ _ _⟩
  · intro ev
    exact ⟨hpre ev s, reachable_wellFormed env _ (Reachable.next ev s h)⟩
  · intro outcome
    by_cases hm : jsTrim s.messageInput.value = ""
    · have hs : handleSendMessage env outcome s = (s, none) := by
        simp [handleSendMessage, start_of_empty env s hm]
      rw [hs]
      exact ⟨List.prefix_refl _, reachable_wellFormed env s h⟩
    · rw [handleSendMessage_of_nonempty env outcome s hm]
      have h1 : Reachable env (step env .click s) := Reachable.next .click s h
      have h2 := Reachable.next (.settle outcome) _ h1
      exact ⟨(hpre .click s).trans (hpre (.settle outcome) (step env .click s)),
        reachable_wellFormed env _ h2⟩

/-- Witness for C10: the page reached from start-up by typing `"  Hello "`,
clicking the send button and receiving a reply. -/
theorem transcript_append_only_witness :
    (step sampleEnv (.settle (.response true (.value (.obj .undefined (.str "**Hi!**")))))
      (step sampleEnv .click (step sampleEnv (.edit "  Hello ")
        (updateChatUI true idleState)))).chatHistory =
      [{ role := "user", text := .str "Hello" }, { role := "model", text := .str "**Hi!**" }] ∧
    ∀ t ∈ (step sampleEnv (.settle (.response true (.value (.obj .undefined (.str "**Hi!**")))))
      (step sampleEnv .click (step sampleEnv (.edit "  Hello ")
        (updateChatUI true idleState)))).chatHistory, t.wellFormed = true :=
  ⟨by decide, (transcript_append_only sampleEnv _
    (Reachable.next _ _ (Reachable.next .click _ (Reachable.next (.edit "  Hello ") _
      (Reachable.init idleState rfl))))).1⟩

end ParentBot
